import Mathlib

/-!
Verification development for the QPay payment frontend.

The definitions below are shallow embeddings of the client-side hooks and
components of the repository: each backend call is modelled by an
`Except String` outcome supplied through an environment record, JavaScript
truthiness of optional strings is modelled by `strTruthy`, and the ordered
sequence of backend calls a run performs is returned as a `List Event`.
-/

set_option maxHeartbeats 1000000

/-- JavaScript `String.prototype.startsWith`, modelled on the character list. -/
def jsStartsWith (s pat : String) : Bool :=
  pat.toList.isPrefixOf s.toList

/-- JavaScript `String.prototype.includes`, modelled on the character list:
the pattern occurs in `s` iff its character list is an infix of that of `s`. -/
def jsIncludes (s pat : String) : Bool :=
  s.toList.tails.any (fun t => pat.toList.isPrefixOf t)

/-- JavaScript `String.prototype.trim`, modelled on the character list. -/
def jsTrim (s : String) : String :=
  String.mk (((s.toList.dropWhile Char.isWhitespace).reverse.dropWhile
    Char.isWhitespace).reverse)

/-- JavaScript truthiness of an optional string value (`undefined`, `null`
and the empty string are falsy). -/
def strTruthy : Option String → Bool
  | none => false
  | some s => !s.isEmpty

/-- User roles mirrored from the backend binding. -/
inductive UserRole where
  | admin
  | user
  | guest
deriving DecidableEq, Repr

/-- Query function of `useGetCallerUserRole` (src/frontend/src/hooks/useQueries.ts,
lines 92-118): with no actor it throws `Actor not available`; otherwise it calls
`actor.getCallerUserRole()` and converts any thrown error into the `guest` role. -/
def getCallerUserRoleQuery (actorPresent : Bool) (backend : Except String UserRole) :
    Except String UserRole :=
  if !actorPresent then Except.error "Actor not available"
  else
    match backend with
    | Except.ok role => Except.ok role
    | Except.error _ => Except.ok UserRole.guest

/-- `getQRImageUrl` from src/frontend/src/pages/UserDashboard.jsx, lines 148-153. -/
def getQRImageUrl (qrImage : String) : String :=
  if jsStartsWith qrImage "data:" then qrImage
  else "data:image/png;base64," ++ qrImage

theorem jsStartsWith_append_of_jsStartsWith (a s pat : String)
    (h : jsStartsWith a pat = true) : jsStartsWith (a ++ s) pat = true := by
  unfold jsStartsWith at h ⊢
  rw [List.isPrefixOf_iff_prefix] at h ⊢
  have hdata : (a ++ s).toList = a.toList ++ s.toList := by
    simp [String.toList]
  rw [hdata]
  exact h.trans (List.prefix_append a.toList s.toList)

/-- Claim C6: when the backend call `getCallerUserRole` throws any error, the
query function of `useGetCallerUserRole` catches it and returns the silent
fallback `guest` role rather than propagating the error. -/
theorem getCallerUserRoleQuery_error_guest (e : String) :
    getCallerUserRoleQuery true (Except.error e) = Except.ok UserRole.guest := rfl

/-- Claim C9: `getQRImageUrl` always returns a string beginning with `data:`;
inputs already beginning with `data:` are returned unchanged (hence the function
is idempotent), and any other input is prefixed with `data:image/png;base64,`. -/
theorem getQRImageUrl_spec (s : String) :
    jsStartsWith (getQRImageUrl s) "data:" = true
    ∧ (jsStartsWith s "data:" = true → getQRImageUrl s = s)
    ∧ (jsStartsWith s "data:" = false → getQRImageUrl s = "data:image/png;base64," ++ s)
    ∧ getQRImageUrl (getQRImageUrl s) = getQRImageUrl s := by
  have hpre : jsStartsWith ("data:image/png;base64," ++ s) "data:" = true := by
    apply jsStartsWith_append_of_jsStartsWith
    decide
  by_cases h : jsStartsWith s "data:" = true
  · refine ⟨?_, ?_, ?_, ?_⟩
    · simp [getQRImageUrl, h]
    · intro _; simp [getQRImageUrl, h]
    · intro hfalse; rw [h] at hfalse; exact absurd hfalse (by decide)
    · simp [getQRImageUrl, h]
  · have hf : jsStartsWith s "data:" = false := by
      cases hx : jsStartsWith s "data:" with
      | false => rfl
      | true => exact absurd hx h
    refine ⟨?_, ?_, ?_, ?_⟩
    · simpa [getQRImageUrl, hf] using hpre
    · intro htrue; exact absurd htrue h
    · intro _; simp [getQRImageUrl, hf]
    · simp only [getQRImageUrl, hf]
      simp [hpre]

/-- Witness for C9 at the concrete input `abc`, which does not start with
`data:`, so the returned URL gains the base64 PNG header. -/
theorem getQRImageUrl_spec_witness :
    getQRImageUrl "abc" = "data:image/png;base64," ++ "abc" :=
  (getQRImageUrl_spec "abc").2.2.1 (by decide)

/-!
Date rendering (`formatTimestamp`, src/unnamed/part_003, lines 181-205).

The JavaScript function converts a nanosecond timestamp to milliseconds,
builds a `Date`, returns `Invalid date` when the time value is out of the
representable range, and otherwise renders the calendar fields zero-padded.
The `Date` internals are modelled here in exact integer arithmetic (UTC):
the millisecond value is the truncated quotient of the nanosecond input, the
time value is valid iff its magnitude is at most 8.64e15, and the calendar
fields come from the proleptic Gregorian calendar computed by clamped
hierarchical division over the 146097-day era.  IEEE-754 rounding of the
nanosecond-to-millisecond conversion and the local-timezone offset shift
which instant is rendered but not the shape properties claimed.
-/

/-- `String(x).padStart(2, '0')` for a natural number field. -/
def pad2 (n : Nat) : String := if n < 10 then "0" ++ toString n else toString n

/-- Century within the 400-year era (clamped: the final era day belongs to
century 3). -/
def centuryOfDoe (doe : Nat) : Nat := min (doe / 36524) 3

/-- Day within the century. -/
def docOfDoe (doe : Nat) : Nat := doe - 36524 * centuryOfDoe doe

/-- Four-year cycle within the century (clamped). -/
def quadOfDoe (doe : Nat) : Nat := min (docOfDoe doe / 1461) 24

/-- Day within the four-year cycle. -/
def doqOfDoe (doe : Nat) : Nat := docOfDoe doe - 1461 * quadOfDoe doe

/-- Year within the four-year cycle (clamped: day 1460 is Feb 29). -/
def yrOfDoe (doe : Nat) : Nat := min (doqOfDoe doe / 365) 3

/-- Day of the March-based year, in `[0, 365]`. -/
def doyOfDoe (doe : Nat) : Nat := doqOfDoe doe - 365 * yrOfDoe doe

/-- Year of the era, in `[0, 399]`. -/
def yoeOfDoe (doe : Nat) : Nat :=
  100 * centuryOfDoe doe + 4 * quadOfDoe doe + yrOfDoe doe

/-- Month index of the March-based year, in `[0, 11]`. -/
def mpOfDoy (doy : Nat) : Nat := (5 * doy + 2) / 153

/-- Day of month, in `[1, 31]`. -/
def dayOfDoy (doy : Nat) : Nat := doy - (153 * mpOfDoy doy + 2) / 5 + 1

/-- Civil month, in `[1, 12]`. -/
def monthOfDoy (doy : Nat) : Nat :=
  if mpOfDoy doy < 10 then mpOfDoy doy + 3 else mpOfDoy doy - 9

/-- Day number of the epoch-based millisecond value (floor division). -/
def dayNumberOfMs (ms : Int) : Int := ms / 86400000

/-- Day of the 400-year era containing the given millisecond value. -/
def doeOfMs (ms : Int) : Nat := ((dayNumberOfMs ms + 719468) % 146097).toNat

/-- Era of the day number (floor division by 146097 days). -/
def eraOfMs (ms : Int) : Int := (dayNumberOfMs ms + 719468) / 146097

/-- `date.getMonth() + 1` of the modelled UTC date. -/
def monthOfMs (ms : Int) : Nat := monthOfDoy (doyOfDoe (doeOfMs ms))

/-- `date.getDate()` of the modelled UTC date. -/
def dayOfMs (ms : Int) : Nat := dayOfDoy (doyOfDoe (doeOfMs ms))

/-- `date.getFullYear()` of the modelled UTC date. -/
def yearOfMs (ms : Int) : Int :=
  eraOfMs ms * 400 + yoeOfDoe (doeOfMs ms) + (if monthOfMs ms ≤ 2 then 1 else 0)

/-- `date.getHours()` of the modelled UTC date. -/
def hourOfMs (ms : Int) : Nat := ((ms / 3600000) % 24).toNat

/-- `date.getMinutes()` of the modelled UTC date. -/
def minuteOfMs (ms : Int) : Nat := ((ms / 60000) % 60).toNat

/-- `date.getSeconds()` of the modelled UTC date. -/
def secondOfMs (ms : Int) : Nat := ((ms / 1000) % 60).toNat

/-- Millisecond time value of a nanosecond timestamp: the `Number` division
by one million followed by the truncation of `TimeClip`. -/
def msOfNs (nanoseconds : Int) : Int := Int.tdiv nanoseconds 1000000

/-- `formatTimestamp` (src/unnamed/part_003, lines 181-205). -/
def formatTimestamp (nanoseconds : Int) : String :=
  if 8640000000000000 < (msOfNs nanoseconds).natAbs then "Invalid date"
  else
    toString (yearOfMs (msOfNs nanoseconds)) ++ "-" ++
      pad2 (monthOfMs (msOfNs nanoseconds)) ++ "-" ++
      pad2 (dayOfMs (msOfNs nanoseconds)) ++ " " ++
      pad2 (hourOfMs (msOfNs nanoseconds)) ++ ":" ++
      pad2 (minuteOfMs (msOfNs nanoseconds)) ++ ":" ++
      pad2 (secondOfMs (msOfNs nanoseconds))

theorem doeOfMs_lt (ms : Int) : doeOfMs ms < 146097 := by
  unfold doeOfMs dayNumberOfMs
  omega

theorem doyOfDoe_le (doe : Nat) (h : doe < 146097) : doyOfDoe doe ≤ 365 := by
  unfold doyOfDoe yrOfDoe doqOfDoe quadOfDoe docOfDoe centuryOfDoe
  omega

theorem dayOfDoy_bounds (doy : Nat) (_h : doy ≤ 365) :
    1 ≤ dayOfDoy doy ∧ dayOfDoy doy ≤ 31 := by
  unfold dayOfDoy mpOfDoy
  omega

theorem monthOfDoy_bounds (doy : Nat) (h : doy ≤ 365) :
    1 ≤ monthOfDoy doy ∧ monthOfDoy doy ≤ 12 := by
  unfold monthOfDoy mpOfDoy
  split <;> omega

theorem hourOfMs_lt (ms : Int) : hourOfMs ms < 24 := by
  unfold hourOfMs
  omega

theorem minuteOfMs_lt (ms : Int) : minuteOfMs ms < 60 := by
  unfold minuteOfMs
  omega

theorem secondOfMs_lt (ms : Int) : secondOfMs ms < 60 := by
  unfold secondOfMs
  omega

theorem pad2_length : ∀ n < 100, (pad2 n).length = 2 := by decide

/-- Claim C10: `formatTimestamp` is total: for every nanosecond input it
returns a string, which is either the timestamp rendered as
`YYYY-MM-DD HH:MM:SS` with zero-padded two-digit month, day, hour, minute and
second fields (when the converted millisecond value yields a valid date), or
the literal string `Invalid date`. -/
theorem formatTimestamp_total_shape (ns : Int) :
    formatTimestamp ns = "Invalid date" ∨
    ∃ y : Int, ∃ mo d h mi s : Nat,
      formatTimestamp ns =
        toString y ++ "-" ++ pad2 mo ++ "-" ++ pad2 d ++ " " ++
          pad2 h ++ ":" ++ pad2 mi ++ ":" ++ pad2 s
      ∧ 1 ≤ mo ∧ mo ≤ 12 ∧ 1 ≤ d ∧ d ≤ 31 ∧ h < 24 ∧ mi < 60 ∧ s < 60
      ∧ (pad2 mo).length = 2 ∧ (pad2 d).length = 2 ∧ (pad2 h).length = 2
      ∧ (pad2 mi).length = 2 ∧ (pad2 s).length = 2 := by
  by_cases hv : 8640000000000000 < (msOfNs ns).natAbs
  · left
    unfold formatTimestamp
    rw [if_pos hv]
  · right
    have hdoe := doeOfMs_lt (msOfNs ns)
    have hdoy := doyOfDoe_le _ hdoe
    have hmo := monthOfDoy_bounds _ hdoy
    have hd := dayOfDoy_bounds _ hdoy
    have hh := hourOfMs_lt (msOfNs ns)
    have hmi := minuteOfMs_lt (msOfNs ns)
    have hs := secondOfMs_lt (msOfNs ns)
    refine ⟨yearOfMs (msOfNs ns), monthOfMs (msOfNs ns),
      dayOfMs (msOfNs ns), hourOfMs (msOfNs ns),
      minuteOfMs (msOfNs ns), secondOfMs (msOfNs ns),
      ?_, hmo.1, hmo.2, hd.1, hd.2, hh, hmi, hs, ?_, ?_, ?_, ?_, ?_⟩
    · unfold formatTimestamp
      rw [if_neg hv]
    · exact pad2_length _ (by have := hmo.2; unfold monthOfMs; omega)
    · exact pad2_length _ (by have := hd.2; unfold dayOfMs; omega)
    · exact pad2_length _ (by omega)
    · exact pad2_length _ (by omega)
    · exact pad2_length _ (by omega)

/-!
Profile saving (Claim C5): `handleSubmit` of ProfileSetupModal
(src/frontend/src/components/ProfileSetupModal.jsx, lines 21-39) and the
mutation function of `useSaveCallerUserProfile`
(src/frontend/src/hooks/useQueries.ts, lines 135-164).
-/

/-- User profile mirrored from the backend binding. -/
structure UserProfile where
  name : String
deriving DecidableEq, Repr

/-- Mutation function of `useSaveCallerUserProfile`: the returned pair is the
thrown or returned outcome together with whether `actor.saveCallerUserProfile`
was invoked. -/
def saveCallerUserProfileMutation (actorPresent : Bool)
    (backend : UserProfile → Except String Unit) (profile : UserProfile) :
    Except String Unit × Bool :=
  if !actorPresent then (Except.error "Actor not available", false)
  else if profile.name.isEmpty || (jsTrim profile.name).isEmpty then
    (Except.error "Name is required", false)
  else (backend profile, true)

/-- `handleSubmit` of ProfileSetupModal: the profile passed to
`saveProfile.mutate`, or `none` when the empty-name guard stops the submit. -/
def profileHandleSubmit (name : String) : Option UserProfile :=
  if (jsTrim name).isEmpty then none else some { name := jsTrim name }

/-- Counterexample to C5 as stated: with no actor available, the mutation
function given an empty-name profile fails with `Actor not available`, not
with `Name is required` (the actor check precedes the name validation). -/
theorem saveProfileMutation_actor_check_first :
    (saveCallerUserProfileMutation false (fun _ => Except.ok ()) { name := "" }).1
      = Except.error "Actor not available"
    ∧ ("Actor not available" : String) ≠ "Name is required" :=
  ⟨rfl, by decide⟩

/-- Claim C5 (amended): submitting the profile-setup form with an empty or
whitespace-only name never invokes the backend `saveCallerUserProfile`:
`handleSubmit` does not call the mutation at all, and the mutation function
fails without calling the backend — with the error `Name is required`
whenever the actor is available (with no actor it fails earlier with
`Actor not available`). -/
theorem saveProfile_empty_name_no_save (actorPresent : Bool)
    (backend : UserProfile → Except String Unit) (profile : UserProfile)
    (h : (jsTrim profile.name).isEmpty = true) :
    (saveCallerUserProfileMutation actorPresent backend profile).2 = false
    ∧ (actorPresent = true →
        (saveCallerUserProfileMutation actorPresent backend profile).1
          = Except.error "Name is required")
    ∧ profileHandleSubmit profile.name = none := by
  unfold saveCallerUserProfileMutation profileHandleSubmit
  cases actorPresent with
  | false => simp [h]
  | true => simp [h]

/-- Witness for C5 (amended) at the whitespace-only name: the backend is not
called and the mutation fails with `Name is required`. -/
theorem saveProfile_empty_name_no_save_witness :
    (saveCallerUserProfileMutation true (fun _ => Except.ok ())
      { name := " " }).2 = false
    ∧ (saveCallerUserProfileMutation true (fun _ => Except.ok ())
        { name := " " }).1 = Except.error "Name is required" :=
  ⟨(saveProfile_empty_name_no_save true (fun _ => Except.ok ()) { name := " " }
      (by decide)).1,
   (saveProfile_empty_name_no_save true (fun _ => Except.ok ()) { name := " " }
      (by decide)).2.1 rfl⟩

/-!
Error handling in the data-fetching hooks (Claims C7 and C8), from
src/frontend/src/hooks/useQueries.ts: `useGetQPayInvoiceConfig`
(lines 234-258), `useGetUserPayments` (lines 289-310), `useGetUserInvoice`
(lines 411-429), `useGetInvoiceConfigForUser` (lines 383-409), and the
variant of `useGetInvoiceConfigForUser` in src/unnamed/part_001
(lines 361-394).
-/

/-- Payment record mirrored from the backend binding. -/
structure PaymentRecord where
  amount : Nat
  status : String
deriving DecidableEq, Repr

/-- Invoice record mirrored from the backend binding. -/
structure InvoiceRecord where
  invoiceId : String
  invoiceData : String
  amount : Nat
  isPaid : Bool
deriving DecidableEq, Repr

/-- Invoice configuration mirrored from the backend binding. -/
structure QPayInvoiceConfig where
  sender_invoice_no : String
  invoice_receiver_code : String
  invoice_description : String
  amount : Nat
deriving DecidableEq, Repr

/-- The toast shown by the catch blocks that test for `Unauthorized`. -/
def unauthorizedToast (e : String) : List String :=
  if jsIncludes e "Unauthorized" then ["Please log in again"] else []

/-- Query function of `useGetQPayInvoiceConfig`: on a backend error it may
toast, then rethrows the error. -/
def getQPayInvoiceConfigQuery (actorPresent : Bool)
    (backend : Except String QPayInvoiceConfig) :
    Except String QPayInvoiceConfig × List String :=
  if !actorPresent then (Except.error "Actor not available", [])
  else
    match backend with
    | Except.ok config => (Except.ok config, [])
    | Except.error e => (Except.error e, unauthorizedToast e)

/-- Query function of `useGetUserPayments`: on a backend error it may toast
and returns the empty list. -/
def getUserPaymentsQuery (actorPresent : Bool)
    (backend : Except String (List PaymentRecord)) :
    Except String (List PaymentRecord) × List String :=
  if !actorPresent then (Except.ok [], [])
  else
    match backend with
    | Except.ok ps => (Except.ok ps, [])
    | Except.error e => (Except.ok [], unauthorizedToast e)

/-- Query function of `useGetUserInvoice`: on a backend error it silently
returns `null`. -/
def getUserInvoiceQuery (actorPresent : Bool)
    (backend : Except String (Option InvoiceRecord)) :
    Except String (Option InvoiceRecord) × List String :=
  if !actorPresent then (Except.ok none, [])
  else
    match backend with
    | Except.ok inv => (Except.ok inv, [])
    | Except.error _ => (Except.ok none, [])

/-- Counterexample to C7 as stated: the query function of
`useGetQPayInvoiceConfig` lets a non-`Unauthorized` backend error propagate
out uncaught, converting it neither into a fallback value nor into a toast. -/
theorem qpayInvoiceConfigQuery_rethrows :
    getQPayInvoiceConfigQuery true (Except.error "boom")
      = (Except.error "boom", []) := rfl

/-- Claim C7 (amended): on a backend error, the query functions of
`useGetUserPayments` and `useGetUserInvoice` catch it and return a silent
fallback (the empty list, resp. `null`), toasting exactly for `Unauthorized`
errors in the former; the query function of `useGetQPayInvoiceConfig` instead
rethrows every backend error after toasting exactly for `Unauthorized`
errors. -/
theorem backendError_fallback_or_rethrow (e : String) :
    getUserPaymentsQuery true (Except.error e) = (Except.ok [], unauthorizedToast e)
    ∧ getUserInvoiceQuery true (Except.error e) = (Except.ok none, [])
    ∧ getQPayInvoiceConfigQuery true (Except.error e)
        = (Except.error e, unauthorizedToast e)
    ∧ (unauthorizedToast e = ["Please log in again"]
        ↔ jsIncludes e "Unauthorized" = true) := by
  refine ⟨rfl, rfl, rfl, ?_⟩
  unfold unauthorizedToast
  split <;> simp_all

/-- The fallback configuration hard-coded in the TypeScript
`useGetInvoiceConfigForUser`. -/
def fallbackConfigTs : QPayInvoiceConfig :=
  { sender_invoice_no := "12345678", invoice_receiver_code := "terminal",
    invoice_description := "Railway эрх 12сар", amount := 10 }

/-- The fallback configuration hard-coded in the src/unnamed/part_001 variant
of `useGetInvoiceConfigForUser`. -/
def fallbackConfigJs : QPayInvoiceConfig :=
  { sender_invoice_no := "12345678", invoice_receiver_code := "terminal",
    invoice_description := "Railway subscription 12 months", amount := 10 }

/-- Query function of `useGetInvoiceConfigForUser`
(src/frontend/src/hooks/useQueries.ts): `null` with no actor, the fetched
config on success, its fallback config on error. -/
def getInvoiceConfigForUserQueryTs (actorPresent : Bool)
    (backend : Except String QPayInvoiceConfig) : Option QPayInvoiceConfig :=
  if !actorPresent then none
  else
    match backend with
    | Except.ok config => some config
    | Except.error _ => some fallbackConfigTs

/-- Query function of the `useGetInvoiceConfigForUser` variant in
src/unnamed/part_001: its fallback config with no actor, the fetched config
on success, its fallback config on error. -/
def getInvoiceConfigForUserQueryJs (actorPresent : Bool)
    (backend : Except String QPayInvoiceConfig) : Option QPayInvoiceConfig :=
  if !actorPresent then some fallbackConfigJs
  else
    match backend with
    | Except.ok config => some config
    | Except.error _ => some fallbackConfigJs

/-- Counterexample to C8 as stated: with the actor absent the TypeScript
query returns `null` while the variant returns its default config, and on a
backend error the two fallback configs differ in their description. -/
theorem invoiceConfigQueries_differ :
    getInvoiceConfigForUserQueryTs false (Except.error "x") = none
    ∧ getInvoiceConfigForUserQueryJs false (Except.error "x") = some fallbackConfigJs
    ∧ getInvoiceConfigForUserQueryTs true (Except.error "x") = some fallbackConfigTs
    ∧ getInvoiceConfigForUserQueryJs true (Except.error "x") = some fallbackConfigJs
    ∧ fallbackConfigTs ≠ fallbackConfigJs := by
  refine ⟨rfl, rfl, rfl, rfl, ?_⟩
  decide

/-- Claim C8 (amended): the two versions of `useGetInvoiceConfigForUser`
agree exactly when the actor is available and the backend call succeeds; they
differ whenever the actor is absent (`null` versus the default config) and
whenever the backend call fails (fallback configs with different
descriptions). -/
theorem invoiceConfigQueries_agree_iff (actorPresent : Bool)
    (backend : Except String QPayInvoiceConfig) :
    getInvoiceConfigForUserQueryTs actorPresent backend
      = getInvoiceConfigForUserQueryJs actorPresent backend
    ↔ (actorPresent = true ∧ ∃ config, backend = Except.ok config) := by
  cases actorPresent with
  | false =>
    simp [getInvoiceConfigForUserQueryTs, getInvoiceConfigForUserQueryJs]
  | true =>
    cases backend with
    | ok config =>
      simp [getInvoiceConfigForUserQueryTs, getInvoiceConfigForUserQueryJs]
    | error e =>
      simp [getInvoiceConfigForUserQueryTs, getInvoiceConfigForUserQueryJs]
      decide

/-!
Registration retries (Claim C4): the mutation of `useEnsureUserRegistration`
(src/frontend/src/hooks/useQueries.ts, lines 57-83) is configured with
`retry: 3`, so one invocation makes at most four attempts; but the
registration effect of `AppContent` (src/frontend/src/App.jsx, lines 109-131)
re-triggers a failed registration two seconds after each failure, without any
round limit.  `outcome n` tells whether the n-th backend attempt succeeds.
-/

/-- Attempts made by one invocation of the registration mutation with
`retriesLeft` retries remaining, starting at global attempt index `k`:
the pair counts the attempts and reports whether one succeeded. -/
def mutateCalls : Nat → (Nat → Bool) → Nat → Nat × Bool
  | retriesLeft, outcome, k =>
    if outcome k then (1, true)
    else
      match retriesLeft with
      | 0 => (1, false)
      | r + 1 => ((mutateCalls r outcome (k + 1)).1 + 1, (mutateCalls r outcome (k + 1)).2)

/-- Total backend attempts across `rounds` rounds of the `AppContent`
registration effect, each round being one invocation of the mutation with
`retry: 3`; a successful round stops the loop, a failed round is re-triggered
after the 2-second timer resets `registrationAttempted`. -/
def appRegistrationCallsFrom (outcome : Nat → Bool) : Nat → Nat → Nat
  | _, 0 => 0
  | k, rounds + 1 =>
    if (mutateCalls 3 outcome k).2 then (mutateCalls 3 outcome k).1
    else (mutateCalls 3 outcome k).1
      + appRegistrationCallsFrom outcome (k + (mutateCalls 3 outcome k).1) rounds

/-- Total backend attempts of the registration call across an app execution
that runs `rounds` rounds of the registration effect. -/
def appRegistrationCalls (outcome : Nat → Bool) (rounds : Nat) : Nat :=
  appRegistrationCallsFrom outcome 0 rounds

theorem mutateCalls_le (r : Nat) (outcome : Nat → Bool) (k : Nat) :
    (mutateCalls r outcome k).1 ≤ r + 1 := by
  induction r generalizing k with
  | zero =>
    unfold mutateCalls
    split <;> simp
  | succ n ih =>
    unfold mutateCalls
    split
    · simp
    · simp only []
      have := ih (k + 1)
      omega

theorem mutateCalls_fail (r k : Nat) :
    mutateCalls r (fun _ => false) k = (r + 1, false) := by
  induction r generalizing k with
  | zero => simp [mutateCalls]
  | succ n ih => simp [mutateCalls, ih]

theorem appRegistrationCallsFrom_fail (rounds k : Nat) :
    appRegistrationCallsFrom (fun _ => false) k rounds = 4 * rounds := by
  induction rounds generalizing k with
  | zero => simp [appRegistrationCallsFrom]
  | succ n ih =>
    simp [appRegistrationCallsFrom, mutateCalls_fail, ih]
    omega

/-- Counterexample to C4 as stated: against a permanently failing backend the
total number of registration attempts over an app execution is not bounded by
any fixed constant, because the registration effect re-triggers the failed
mutation indefinitely. -/
theorem appRegistrationCalls_unbounded :
    ¬ ∃ C, ∀ rounds, appRegistrationCalls (fun _ => false) rounds ≤ C := by
  intro h
  obtain ⟨C, hC⟩ := h
  have := hC (C + 1)
  rw [appRegistrationCalls, appRegistrationCallsFrom_fail] at this
  omega

/-- Claim C4 (amended): each invocation of the registration mutation has a
bounded retry count — `retry: 3` yields at most four attempts per invocation —
but the app-level effect re-triggers a failed registration every two seconds,
so a permanently failing backend sees four fresh attempts per round, without
bound over the execution. -/
theorem registrationRetry_bounded_per_invocation :
    (∀ outcome k, (mutateCalls 3 outcome k).1 ≤ 4)
    ∧ (∀ rounds, appRegistrationCalls (fun _ => false) rounds = 4 * rounds) := by
  constructor
  · intro outcome k
    have := mutateCalls_le 3 outcome k
    omega
  · intro rounds
    exact appRegistrationCallsFrom_fail rounds 0

/-!
The payment-acquisition flow (Claims C1 and C2): the mutation function of
`useMakeQPayPayment` (src/frontend/src/hooks/useQueries.ts, lines 437-565)
orchestrates the backend calls `checkForValidInvoice`,
`makeQPayTokenRequest`, `getValidOrCreateInvoice`, `storeUserInvoice`
(through `useStoreUserInvoice`, lines 567-586) and `recordPayment`.  The
environment supplies each backend outcome and the results of `JSON.parse`;
the flow returns the ordered list of backend calls it performed together
with its resolved or rejected value.  Polling for payment confirmation
happens in UserDashboard only after `handlePay`'s `mutateAsync` resolves; a
dashboard run is modelled by appending the poll events to a successful flow.
-/

/-- Result of `checkForValidInvoice` mirrored from the backend binding. -/
structure InvoiceCheckResult where
  hasValidInvoice : Bool
  invoiceData : Option String
  amount : Option Nat
deriving DecidableEq, Repr

/-- Result of `getValidOrCreateInvoice` mirrored from the backend binding. -/
structure InvoiceResponse where
  invoiceData : String
  isNewInvoice : Bool
  amount : Nat
deriving DecidableEq, Repr

/-- Parsed token response: the `access_token` field may be missing. -/
structure TokenData where
  access_token : Option String
deriving DecidableEq, Repr

/-- Parsed invoice payload: the `invoice_id` field may be missing. -/
structure ParsedInvoice where
  invoice_id : Option String
deriving DecidableEq, Repr

/-- The backend calls the payment flow can perform, plus the dashboard's
payment-status poll. -/
inductive Event where
  | checkInvoice
  | tokenRequest
  | createInvoice
  | storeInvoice
  | recordPayment
  | pollStatus
deriving DecidableEq, Repr

/-- Environment of one run of the payment flow: actor availability, the
outcome of each backend call, and the behaviour of `JSON.parse` on the
strings the run feeds it. -/
structure ActorEnv where
  actorPresent : Bool
  checkResult : Except String InvoiceCheckResult
  tokenResult : Except String String
  parseToken : String → Option TokenData
  createResult : Except String InvoiceResponse
  parseInvoice : String → Option ParsedInvoice
  storeResult : Except String Unit

/-- Value resolved by the payment-flow mutation. -/
structure FlowOutput where
  invoiceData : String
  token : Option String
  invoiceId : Option String
deriving DecidableEq, Repr

/-- The reuse condition of the flow:
`invoiceCheck.hasValidInvoice && invoiceCheck.invoiceData && invoiceCheck.amount !== undefined`. -/
def validInvoiceCheck (r : InvoiceCheckResult) : Bool :=
  r.hasValidInvoice && strTruthy r.invoiceData && r.amount.isSome

/-- Shared tail of the payment flow, from `JSON.parse(invoiceResponse.invoiceData)`
to the resolved value: store the invoice only when it is newly created and
carries a truthy `invoice_id`, then record the payment. -/
def paymentFlowTail (env : ActorEnv) (evs : List Event) (resp : InvoiceResponse)
    (token : Option String) : List Event × Except String FlowOutput :=
  match env.parseInvoice resp.invoiceData with
  | none => (evs, Except.error "Invalid invoice JSON")
  | some parsed =>
    if resp.isNewInvoice && strTruthy parsed.invoice_id then
      match env.storeResult with
      | Except.error e => (evs ++ [Event.storeInvoice], Except.error e)
      | Except.ok _ =>
        (evs ++ [Event.storeInvoice, Event.recordPayment],
          Except.ok { invoiceData := resp.invoiceData, token := token,
                      invoiceId := parsed.invoice_id })
    else
      (evs ++ [Event.recordPayment],
        Except.ok { invoiceData := resp.invoiceData, token := token,
                    invoiceId := parsed.invoice_id })

/-- Mutation function of `useMakeQPayPayment`: check for an existing valid
invoice first; on a valid invoice reuse it (requesting a token only for
status checking, tolerating parse failures); otherwise request a token
(failing on parse failure or falsy token) and create a new invoice. -/
def makeQPayPaymentFlow (env : ActorEnv) : List Event × Except String FlowOutput :=
  if !env.actorPresent then ([], Except.error "Actor not available")
  else
    match env.checkResult with
    | Except.error e => ([Event.checkInvoice], Except.error e)
    | Except.ok invoiceCheck =>
      if validInvoiceCheck invoiceCheck then
        match env.tokenResult with
        | Except.error e => ([Event.checkInvoice, Event.tokenRequest], Except.error e)
        | Except.ok tokenResponse =>
          paymentFlowTail env [Event.checkInvoice, Event.tokenRequest]
            { invoiceData := invoiceCheck.invoiceData.getD "",
              isNewInvoice := false,
              amount := invoiceCheck.amount.getD 0 }
            (match env.parseToken tokenResponse with
              | none => none
              | some tokenData => tokenData.access_token)
      else
        match env.tokenResult with
        | Except.error e => ([Event.checkInvoice, Event.tokenRequest], Except.error e)
        | Except.ok tokenResponse =>
          match env.parseToken tokenResponse with
          | none =>
            ([Event.checkInvoice, Event.tokenRequest], Except.error "Failed to parse token")
          | some tokenData =>
            if strTruthy tokenData.access_token then
              match env.createResult with
              | Except.error e =>
                ([Event.checkInvoice, Event.tokenRequest, Event.createInvoice],
                  Except.error e)
              | Except.ok invoiceResponse =>
                paymentFlowTail env
                  [Event.checkInvoice, Event.tokenRequest, Event.createInvoice]
                  invoiceResponse tokenData.access_token
            else
              ([Event.checkInvoice, Event.tokenRequest], Except.error "Failed to parse token")

/-- A dashboard run: `handlePay` awaits the flow, and only a successful flow
sets the state that starts the payment-status polling, which then runs some
number of times. -/
def handlePayAndPoll (env : ActorEnv) (polls : Nat) : List Event :=
  match (makeQPayPaymentFlow env).2 with
  | Except.ok _ => (makeQPayPaymentFlow env).1 ++ List.replicate polls Event.pollStatus
  | Except.error _ => (makeQPayPaymentFlow env).1

/-- Whether an event list is empty or starts with the invoice check. -/
def checkFirst : List Event → Bool
  | [] => true
  | e :: _ => decide (e = Event.checkInvoice)

/-- Whether all events from the first poll on are polls. -/
def pollsLast (l : List Event) : Bool :=
  (l.dropWhile (fun e => !decide (e = Event.pollStatus))).all
    (fun e => decide (e = Event.pollStatus))

/-- Whether no store event occurs from the first poll on. -/
def storeBeforePolls (l : List Event) : Bool :=
  (l.dropWhile (fun e => !decide (e = Event.pollStatus))).all
    (fun e => !decide (e = Event.storeInvoice))

/-- Whether the flow resolved. -/
def flowOk : Except String FlowOutput → Bool
  | Except.ok _ => true
  | Except.error _ => false

theorem flowEvents_cases (env : ActorEnv) :
    (makeQPayPaymentFlow env).1 = []
    ∨ (makeQPayPaymentFlow env).1 = [Event.checkInvoice]
    ∨ (makeQPayPaymentFlow env).1 = [Event.checkInvoice, Event.tokenRequest]
    ∨ (makeQPayPaymentFlow env).1
        = [Event.checkInvoice, Event.tokenRequest, Event.recordPayment]
    ∨ (makeQPayPaymentFlow env).1
        = [Event.checkInvoice, Event.tokenRequest, Event.createInvoice]
    ∨ (makeQPayPaymentFlow env).1
        = [Event.checkInvoice, Event.tokenRequest, Event.createInvoice,
            Event.recordPayment]
    ∨ (makeQPayPaymentFlow env).1
        = [Event.checkInvoice, Event.tokenRequest, Event.createInvoice,
            Event.storeInvoice]
    ∨ (makeQPayPaymentFlow env).1
        = [Event.checkInvoice, Event.tokenRequest, Event.createInvoice,
            Event.storeInvoice, Event.recordPayment] := by
  unfold makeQPayPaymentFlow paymentFlowTail
  repeat' split
  all_goals simp_all

theorem flowEvents_valid_cases (env : ActorEnv) (r : InvoiceCheckResult)
    (hc : env.checkResult = Except.ok r) (hv : validInvoiceCheck r = true) :
    (makeQPayPaymentFlow env).1 = []
    ∨ (makeQPayPaymentFlow env).1 = [Event.checkInvoice, Event.tokenRequest]
    ∨ (makeQPayPaymentFlow env).1
        = [Event.checkInvoice, Event.tokenRequest, Event.recordPayment] := by
  unfold makeQPayPaymentFlow paymentFlowTail
  repeat' split
  all_goals simp_all

theorem flowEvents_ok_cases (env : ActorEnv)
    (h : flowOk (makeQPayPaymentFlow env).2 = true) :
    (makeQPayPaymentFlow env).1
        = [Event.checkInvoice, Event.tokenRequest, Event.recordPayment]
    ∨ (makeQPayPaymentFlow env).1
        = [Event.checkInvoice, Event.tokenRequest, Event.createInvoice,
            Event.recordPayment]
    ∨ (makeQPayPaymentFlow env).1
        = [Event.checkInvoice, Event.tokenRequest, Event.createInvoice,
            Event.storeInvoice, Event.recordPayment] := by
  revert h
  unfold flowOk makeQPayPaymentFlow paymentFlowTail
  repeat' split
  all_goals intro h
  all_goals simp_all

theorem flow_store_isNew (env : ActorEnv)
    (h : Event.storeInvoice ∈ (makeQPayPaymentFlow env).1) :
    ∃ resp, env.createResult = Except.ok resp ∧ resp.isNewInvoice = true := by
  revert h
  unfold makeQPayPaymentFlow paymentFlowTail
  repeat' split
  all_goals intro h
  all_goals simp_all

theorem flow_new_invoice_stores (env : ActorEnv) (resp : InvoiceResponse)
    (parsed : ParsedInvoice)
    (hcr : env.createResult = Except.ok resp)
    (hnew : resp.isNewInvoice = true)
    (hpi : env.parseInvoice resp.invoiceData = some parsed)
    (hid : strTruthy parsed.invoice_id = true)
    (hcre : Event.createInvoice ∈ (makeQPayPaymentFlow env).1) :
    Event.storeInvoice ∈ (makeQPayPaymentFlow env).1 := by
  revert hcre
  unfold makeQPayPaymentFlow paymentFlowTail
  repeat' split
  all_goals intro hcre
  all_goals simp_all

theorem pollStatus_not_in_flow (env : ActorEnv) :
    Event.pollStatus ∉ (makeQPayPaymentFlow env).1 := by
  rcases flowEvents_cases env with h | h | h | h | h | h | h | h <;> rw [h] <;> decide

theorem checkFirst_flow (env : ActorEnv) :
    checkFirst (makeQPayPaymentFlow env).1 = true := by
  rcases flowEvents_cases env with h | h | h | h | h | h | h | h <;> rw [h] <;> decide

theorem dropWhile_append_of_all {α : Type} (p : α → Bool) (l₁ l₂ : List α)
    (h : ∀ e ∈ l₁, p e = true) :
    (l₁ ++ l₂).dropWhile p = l₂.dropWhile p := by
  induction l₁ with
  | nil => rfl
  | cons a t ih =>
    simp only [List.cons_append, List.dropWhile_cons]
    rw [h a (List.mem_cons_self a t)]
    exact ih fun e he => h e (List.mem_cons_of_mem a he)

theorem dropWhile_eq_nil_of_all {α : Type} (p : α → Bool) (l : List α)
    (h : ∀ e ∈ l, p e = true) : l.dropWhile p = [] := by
  induction l with
  | nil => rfl
  | cons a t ih =>
    simp only [List.dropWhile_cons]
    rw [h a (List.mem_cons_self a t)]
    exact ih fun e he => h e (List.mem_cons_of_mem a he)

theorem replicate_poll_suffix_all (n : Nat) (q : Event → Bool)
    (hq : q Event.pollStatus = true) :
    ((List.replicate n Event.pollStatus).dropWhile
        (fun e => !decide (e = Event.pollStatus))).all q = true := by
  cases n with
  | zero => rfl
  | succ m =>
    rw [List.replicate_succ]
    simp only [List.dropWhile_cons]
    norm_num
    exact ⟨hq, Or.inr hq⟩

theorem pollsLast_flow_append (l : List Event) (n : Nat)
    (h : Event.pollStatus ∉ l) :
    pollsLast (l ++ List.replicate n Event.pollStatus) = true := by
  unfold pollsLast
  rw [dropWhile_append_of_all]
  · exact replicate_poll_suffix_all n _ (by decide)
  · intro e he
    have hne : e ≠ Event.pollStatus := fun hh => h (hh ▸ he)
    simp [hne]

theorem pollsLast_no_poll (l : List Event) (h : Event.pollStatus ∉ l) :
    pollsLast l = true := by
  unfold pollsLast
  rw [dropWhile_eq_nil_of_all]
  · rfl
  · intro e he
    have hne : e ≠ Event.pollStatus := fun hh => h (hh ▸ he)
    simp [hne]

theorem storeBeforePolls_flow_append (l : List Event) (n : Nat)
    (h : Event.pollStatus ∉ l) :
    storeBeforePolls (l ++ List.replicate n Event.pollStatus) = true := by
  unfold storeBeforePolls
  rw [dropWhile_append_of_all]
  · exact replicate_poll_suffix_all n _ (by decide)
  · intro e he
    have hne : e ≠ Event.pollStatus := fun hh => h (hh ▸ he)
    simp [hne]

theorem storeBeforePolls_no_poll (l : List Event) (h : Event.pollStatus ∉ l) :
    storeBeforePolls l = true := by
  unfold storeBeforePolls
  rw [dropWhile_eq_nil_of_all]
  · rfl
  · intro e he
    have hne : e ≠ Event.pollStatus := fun hh => h (hh ▸ he)
    simp [hne]

theorem flow_check_error_cases (env : ActorEnv) (e : String)
    (hc : env.checkResult = Except.error e) :
    (makeQPayPaymentFlow env).1 = []
    ∨ (makeQPayPaymentFlow env).1 = [Event.checkInvoice] := by
  unfold makeQPayPaymentFlow
  repeat' split
  all_goals simp_all

/-- Claim C1: every run of the payment flow performs `checkForValidInvoice`
first — before any `makeQPayTokenRequest` or `getValidOrCreateInvoice` call —
a token is requested only conditionally (never when the invoice check fails),
payment-confirmation polls come only after the flow, and no run calls
`getValidOrCreateInvoice` when the invoice check reported a valid invoice
with data and amount. -/
theorem paymentFlow_step_order (env : ActorEnv) (polls : Nat) :
    checkFirst (makeQPayPaymentFlow env).1 = true
    ∧ checkFirst (handlePayAndPoll env polls) = true
    ∧ pollsLast (handlePayAndPoll env polls) = true
    ∧ (∀ r, env.checkResult = Except.ok r → validInvoiceCheck r = true →
        Event.createInvoice ∉ (makeQPayPaymentFlow env).1
        ∧ Event.createInvoice ∉ handlePayAndPoll env polls)
    ∧ (∀ e, env.checkResult = Except.error e →
        Event.tokenRequest ∉ (makeQPayPaymentFlow env).1) := by
  refine ⟨checkFirst_flow env, ?_, ?_, ?_, ?_⟩
  · unfold handlePayAndPoll
    split
    · next val heq =>
      have hok : flowOk (makeQPayPaymentFlow env).2 = true := by rw [heq]; rfl
      rcases flowEvents_ok_cases env hok with h | h | h <;> rw [h] <;> rfl
    · exact checkFirst_flow env
  · unfold handlePayAndPoll
    split
    · exact pollsLast_flow_append _ polls (pollStatus_not_in_flow env)
    · exact pollsLast_no_poll _ (pollStatus_not_in_flow env)
  · intro r hc hv
    have hmem := flowEvents_valid_cases env r hc hv
    constructor
    · rcases hmem with h | h | h <;> rw [h] <;> decide
    · unfold handlePayAndPoll
      split
      · rw [List.mem_append]
        rintro (hin | hin)
        · rcases hmem with h | h | h <;> rw [h] at hin <;> revert hin <;> decide
        · exact absurd (List.eq_of_mem_replicate hin) (by decide)
      · rcases hmem with h | h | h <;> rw [h] <;> decide
  · intro e hc
    rcases flow_check_error_cases env e hc with h | h <;> rw [h] <;> decide

/-- A concrete run environment whose invoice check reports a valid existing
invoice with data and amount, so the flow reuses it. -/
def reuseEnv : ActorEnv :=
  { actorPresent := true,
    checkResult := Except.ok
      { hasValidInvoice := true, invoiceData := some "inv", amount := some 10 },
    tokenResult := Except.ok "tok",
    parseToken := fun _ => some { access_token := some "tkn" },
    createResult := Except.ok
      { invoiceData := "inv", isNewInvoice := true, amount := 10 },
    parseInvoice := fun _ => some { invoice_id := some "id1" },
    storeResult := Except.ok () }

/-- Witness for C1 at the concrete reuse environment: the check comes first
and no invoice is created. -/
theorem paymentFlow_step_order_witness :
    checkFirst (makeQPayPaymentFlow reuseEnv).1 = true
    ∧ Event.createInvoice ∉ handlePayAndPoll reuseEnv 2 :=
  ⟨(paymentFlow_step_order reuseEnv 2).1,
   ((paymentFlow_step_order reuseEnv 2).2.2.2.1
      { hasValidInvoice := true, invoiceData := some "inv", amount := some 10 }
      rfl (by decide)).2⟩

/-- Counterexample to C2 as stated: the run that reuses a valid existing
invoice resolves successfully without ever calling `storeUserInvoice`. -/
theorem paymentFlow_reuse_no_store :
    flowOk (makeQPayPaymentFlow reuseEnv).2 = true
    ∧ Event.storeInvoice ∉ (makeQPayPaymentFlow reuseEnv).1 := by
  constructor
  · rfl
  · decide

/-- Claim C2 (amended): the flow stores an invoice only when it is newly
created (`isNewInvoice` with a truthy `invoice_id`); a run whose invoice
check reported a valid invoice never stores; every run that creates a new
stored invoice does store it; and any store happens before all
payment-confirmation polls. -/
theorem storeInvoice_only_for_new (env : ActorEnv) (polls : Nat) :
    storeBeforePolls (handlePayAndPoll env polls) = true
    ∧ (Event.storeInvoice ∈ handlePayAndPoll env polls
        ↔ Event.storeInvoice ∈ (makeQPayPaymentFlow env).1)
    ∧ (Event.storeInvoice ∈ (makeQPayPaymentFlow env).1 →
        ∃ resp, env.createResult = Except.ok resp ∧ resp.isNewInvoice = true)
    ∧ (∀ r, env.checkResult = Except.ok r → validInvoiceCheck r = true →
        Event.storeInvoice ∉ handlePayAndPoll env polls)
    ∧ (∀ resp parsed,
        env.createResult = Except.ok resp → resp.isNewInvoice = true →
        env.parseInvoice resp.invoiceData = some parsed →
        strTruthy parsed.invoice_id = true →
        Event.createInvoice ∈ (makeQPayPaymentFlow env).1 →
        Event.storeInvoice ∈ (makeQPayPaymentFlow env).1) := by
  refine ⟨?_, ?_, flow_store_isNew env, ?_, flow_new_invoice_stores env⟩
  · unfold handlePayAndPoll
    split
    · exact storeBeforePolls_flow_append _ polls (pollStatus_not_in_flow env)
    · exact storeBeforePolls_no_poll _ (pollStatus_not_in_flow env)
  · unfold handlePayAndPoll
    split
    · rw [List.mem_append]
      simp [List.mem_replicate]
    · exact Iff.rfl
  · intro r hc hv
    have hmem := flowEvents_valid_cases env r hc hv
    unfold handlePayAndPoll
    split
    · rw [List.mem_append]
      rintro (hin | hin)
      · rcases hmem with h | h | h <;> rw [h] at hin <;> revert hin <;> decide
      · exact absurd (List.eq_of_mem_replicate hin) (by decide)
    · rcases hmem with h | h | h <;> rw [h] <;> decide

/-- A concrete run environment with no valid existing invoice, a parsable
token and a newly created invoice. -/
def newEnv : ActorEnv :=
  { actorPresent := true,
    checkResult := Except.ok
      { hasValidInvoice := false, invoiceData := none, amount := none },
    tokenResult := Except.ok "tok",
    parseToken := fun _ => some { access_token := some "tkn" },
    createResult := Except.ok
      { invoiceData := "inv", isNewInvoice := true, amount := 10 },
    parseInvoice := fun _ => some { invoice_id := some "id1" },
    storeResult := Except.ok () }

/-- Witness for C2 (amended) at the concrete new-invoice environment: the
newly created invoice is stored, before any poll. -/
theorem storeInvoice_only_for_new_witness :
    storeBeforePolls (handlePayAndPoll newEnv 1) = true
    ∧ Event.storeInvoice ∈ (makeQPayPaymentFlow newEnv).1 :=
  ⟨(storeInvoice_only_for_new newEnv 1).1,
   (storeInvoice_only_for_new newEnv 1).2.2.2.2
      { invoiceData := "inv", isNewInvoice := true, amount := 10 }
      { invoice_id := some "id1" }
      rfl rfl rfl (by decide) (by decide)⟩

/-!
Payment-status polling in UserDashboard (Claim C3), from
src/frontend/src/pages/UserDashboard.jsx: the polling effect (lines 79-117)
starts a 5000 ms interval while invoice data and a token are present and the
status is not `paid`, clearing any previous interval first; the paid effect
(lines 58-77) clears the interval when the status becomes `paid`; the unmount
effect (lines 119-127) clears it on unmount; and `cleanupAndRedirect`
(lines 25-39), invoked by the back button (lines 144-146), clears it and
resets the state.  Interval timers are modelled as fresh identifiers with
their interval length; a timer can fire only while its identifier is live,
and `clearInterval` removes it. -/

/-- The `paymentStatus` state of UserDashboard. -/
inductive PayStatus where
  | pending
  | checking
  | paid
deriving DecidableEq, Repr

/-- State of the UserDashboard component together with the live interval
timers of the environment (identifier and interval length in ms). -/
structure DashState where
  hasInvoiceData : Bool
  hasToken : Bool
  status : PayStatus
  pollingRef : Option Nat
  live : List (Nat × Nat)
  nextId : Nat
deriving DecidableEq, Repr

/-- The guarded `clearInterval(pollingIntervalRef.current);
pollingIntervalRef.current = null` used by every cleanup site. -/
def clearPolling (s : DashState) : DashState :=
  match s.pollingRef with
  | none => s
  | some id =>
    { s with pollingRef := none,
             live := s.live.filter (fun p => decide (p.1 ≠ id)) }

/-- The events acting on the dashboard state: `handlePay` success,
`setPaymentStatus` updates, the polling effect and its cleanup, the
paid-redirect effect, the back button, and the unmount cleanup. -/
inductive DashEvent where
  | startPayment
  | statusPaid
  | statusChecking
  | statusPending
  | pollEffect
  | pollCleanup
  | paidEffect
  | backButton
  | unmountCleanup
deriving DecidableEq, Repr

/-- The polling effect's guard: `invoiceData && paymentToken &&
paymentStatus !== 'paid'`. -/
def pollCond (s : DashState) : Bool :=
  s.hasInvoiceData && s.hasToken && !decide (s.status = PayStatus.paid)

/-- One step of the dashboard: each event's action is the body of the
corresponding handler or effect in UserDashboard. -/
def stepDash (s : DashState) : DashEvent → DashState
  | DashEvent.startPayment => { s with hasInvoiceData := true, hasToken := true }
  | DashEvent.statusPaid => { s with status := PayStatus.paid }
  | DashEvent.statusChecking => { s with status := PayStatus.checking }
  | DashEvent.statusPending => { s with status := PayStatus.pending }
  | DashEvent.pollEffect =>
    if pollCond s = true then
      { clearPolling s with
          pollingRef := some (clearPolling s).nextId,
          live := (clearPolling s).live ++ [((clearPolling s).nextId, 5000)],
          nextId := (clearPolling s).nextId + 1 }
    else s
  | DashEvent.pollCleanup => clearPolling s
  | DashEvent.paidEffect =>
    if s.status = PayStatus.paid then clearPolling s else s
  | DashEvent.backButton =>
    { clearPolling s with
        hasInvoiceData := false, hasToken := false,
        status := PayStatus.pending }
  | DashEvent.unmountCleanup => clearPolling s

/-- Initial state of a freshly mounted UserDashboard. -/
def initDash : DashState :=
  { hasInvoiceData := false, hasToken := false, status := PayStatus.pending,
    pollingRef := none, live := [], nextId := 0 }

/-- Run the dashboard from the initial state through a list of events. -/
def runDash (es : List DashEvent) : DashState := es.foldl stepDash initDash

/-- The identifiers of the live interval timers. -/
def liveIds (s : DashState) : List Nat := s.live.map Prod.fst

theorem clearPolling_nextId (s : DashState) :
    (clearPolling s).nextId = s.nextId := by
  unfold clearPolling
  split <;> rfl

theorem clearPolling_ref_none (s : DashState) :
    (clearPolling s).pollingRef = none := by
  unfold clearPolling
  split
  · assumption
  · rfl

theorem clearPolling_live_subset (s : DashState) (id : Nat)
    (h : id ∈ liveIds (clearPolling s)) : id ∈ liveIds s := by
  unfold clearPolling at h
  split at h
  · exact h
  · simp only [liveIds, List.mem_map] at h ⊢
    obtain ⟨p, hp, hfst⟩ := h
    exact ⟨p, (List.mem_filter.mp hp).1, hfst⟩

theorem clearPolling_not_live (s : DashState) (id : Nat)
    (h : s.pollingRef = some id) : id ∉ liveIds (clearPolling s) := by
  unfold clearPolling
  rw [h]
  simp only [liveIds, List.mem_map]
  rintro ⟨p, hp, hfst⟩
  exact absurd hfst (of_decide_eq_true (List.mem_filter.mp hp).2)

theorem not_live_preserved (s : DashState) (e : DashEvent) (id : Nat)
    (hlt : id < s.nextId) (h : id ∉ liveIds s) :
    id < (stepDash s e).nextId ∧ id ∉ liveIds (stepDash s e) := by
  cases e with
  | startPayment => exact ⟨hlt, h⟩
  | statusPaid => exact ⟨hlt, h⟩
  | statusChecking => exact ⟨hlt, h⟩
  | statusPending => exact ⟨hlt, h⟩
  | pollCleanup =>
    refine ⟨?_, ?_⟩
    · simp only [stepDash, clearPolling_nextId]
      exact hlt
    · intro hm
      exact h (clearPolling_live_subset s id hm)
  | unmountCleanup =>
    refine ⟨?_, ?_⟩
    · simp only [stepDash, clearPolling_nextId]
      exact hlt
    · intro hm
      exact h (clearPolling_live_subset s id hm)
  | paidEffect =>
    simp only [stepDash]
    split
    · refine ⟨?_, ?_⟩
      · simp only [clearPolling_nextId]
        exact hlt
      · intro hm
        exact h (clearPolling_live_subset s id hm)
    · exact ⟨hlt, h⟩
  | backButton =>
    refine ⟨?_, ?_⟩
    · simp only [stepDash, clearPolling_nextId]
      exact hlt
    · intro hm
      exact h (clearPolling_live_subset s id (by
        simpa only [liveIds] using hm))
  | pollEffect =>
    simp only [stepDash]
    split
    · refine ⟨?_, ?_⟩
      · simp only [clearPolling_nextId]
        omega
      · intro hm
        simp only [liveIds, List.mem_map] at hm
        obtain ⟨p, hp, hfst⟩ := hm
        rcases List.mem_append.mp hp with hp1 | hp2
        · exact h (clearPolling_live_subset s id
            (List.mem_map.mpr ⟨p, hp1, hfst⟩))
        · have hpq : p = ((clearPolling s).nextId, 5000) := by
            simpa using hp2
          rw [hpq] at hfst
          simp only [clearPolling_nextId] at hfst
          omega
    · exact ⟨hlt, h⟩

theorem not_live_run (s : DashState) (es : List DashEvent) (id : Nat)
    (hlt : id < s.nextId) (h : id ∉ liveIds s) :
    id ∉ liveIds (es.foldl stepDash s) := by
  induction es generalizing s with
  | nil => exact h
  | cons e t ih =>
    have hstep := not_live_preserved s e id hlt h
    exact ih (stepDash s e) hstep.1 hstep.2

theorem interval_5000_preserved (s : DashState) (e : DashEvent)
    (h : ∀ p ∈ s.live, p.2 = 5000) :
    ∀ p ∈ (stepDash s e).live, p.2 = 5000 := by
  have hclear : ∀ p ∈ (clearPolling s).live, p.2 = 5000 := by
    intro p hp
    unfold clearPolling at hp
    split at hp
    · exact h p hp
    · exact h p (List.mem_filter.mp hp).1
  cases e with
  | startPayment => exact h
  | statusPaid => exact h
  | statusChecking => exact h
  | statusPending => exact h
  | pollCleanup => exact hclear
  | unmountCleanup => exact hclear
  | backButton => exact hclear
  | paidEffect =>
    simp only [stepDash]
    split
    · exact hclear
    · exact h
  | pollEffect =>
    simp only [stepDash]
    split
    · intro p hp
      rcases List.mem_append.mp hp with hp1 | hp2
      · exact hclear p hp1
      · have : p = ((clearPolling s).nextId, 5000) := by simpa using hp2
        rw [this]
    · exact h

theorem interval_5000_run (es : List DashEvent) :
    ∀ p ∈ (runDash es).live, p.2 = 5000 := by
  unfold runDash
  induction es using List.reverseRecOn with
  | nil => intro p hp; simp [initDash] at hp
  | append_singleton t e ih =>
    rw [List.foldl_append]
    exact interval_5000_preserved _ e ih

/-- Claim C3: while a payment is pending (invoice data and token present,
status not `paid`) the polling effect installs a 5000 ms interval timer —
every live timer has interval 5000 — and the timer is cleared when the status
becomes `paid`, on unmount, and on the back button's `cleanupAndRedirect`;
a cleared timer identifier is never live again, whatever events follow. -/
theorem dashboardPolling_spec (es more : List DashEvent) (id : Nat) :
    (∀ p ∈ (runDash es).live, p.2 = 5000)
    ∧ (pollCond (runDash es) = true →
        (stepDash (runDash es) DashEvent.pollEffect).pollingRef
            = some (runDash es).nextId
        ∧ ((runDash es).nextId, 5000)
            ∈ (stepDash (runDash es) DashEvent.pollEffect).live)
    ∧ ((runDash es).status = PayStatus.paid →
        (stepDash (runDash es) DashEvent.paidEffect).pollingRef = none
        ∧ ((runDash es).pollingRef = some id →
            id ∉ liveIds (stepDash (runDash es) DashEvent.paidEffect)))
    ∧ ((stepDash (runDash es) DashEvent.unmountCleanup).pollingRef = none
        ∧ ((runDash es).pollingRef = some id →
            id ∉ liveIds (stepDash (runDash es) DashEvent.unmountCleanup)))
    ∧ ((stepDash (runDash es) DashEvent.backButton).pollingRef = none
        ∧ ((runDash es).pollingRef = some id →
            id ∉ liveIds (stepDash (runDash es) DashEvent.backButton)))
    ∧ (id ∉ liveIds (runDash es) → id < (runDash es).nextId →
        id ∉ liveIds (more.foldl stepDash (runDash es))) := by
  refine ⟨interval_5000_run es, ?_, ?_, ?_, ?_, ?_⟩
  · intro hc
    simp only [stepDash]
    rw [if_pos hc]
    refine ⟨?_, ?_⟩
    · simp only [clearPolling_nextId]
    · rw [clearPolling_nextId]
      exact List.mem_append_right _ (by simp [clearPolling_nextId])
  · intro hp
    simp only [stepDash]
    rw [if_pos hp]
    exact ⟨clearPolling_ref_none _,
      fun href => clearPolling_not_live _ id href⟩
  · exact ⟨clearPolling_ref_none _,
      fun href => clearPolling_not_live _ id href⟩
  · refine ⟨?_, ?_⟩
    · exact clearPolling_ref_none _
    · intro href hm
      exact clearPolling_not_live _ id href (by
        simpa only [liveIds] using hm)
  · intro hnl hlt
    exact not_live_run _ more id hlt hnl

/-- Witness for C3 at a concrete trace: after `handlePay` succeeds and a
polling timer starts, the paid effect clears the timer reference, and the
cleared timer identifier stays dead through further events. -/
theorem dashboardPolling_spec_witness :
    (stepDash (runDash [DashEvent.startPayment, DashEvent.pollEffect,
        DashEvent.statusPaid]) DashEvent.paidEffect).pollingRef = none
    ∧ 0 ∉ liveIds (List.foldl stepDash
        (runDash [DashEvent.startPayment, DashEvent.pollEffect,
          DashEvent.statusPaid, DashEvent.paidEffect]) [DashEvent.pollEffect]) :=
  ⟨((dashboardPolling_spec
      [DashEvent.startPayment, DashEvent.pollEffect, DashEvent.statusPaid]
      [] 0).2.2.1 (by decide)).1,
   (dashboardPolling_spec
      [DashEvent.startPayment, DashEvent.pollEffect, DashEvent.statusPaid,
        DashEvent.paidEffect]
      [DashEvent.pollEffect] 0).2.2.2.2.2 (by decide) (by decide)⟩
